import Mathlib

/-!
Verification of the LLM chat application worker (`src/index.ts`).

The worker is a thin proxy: a request dispatcher routing on method and
pathname, a chat adapter that normalizes the message list and selects a
backend generator, and two backend stream generators.  We embed that
logic shallowly: the parsed request body, the dispatch decision, the
Gemini stream pump and the response construction become pure Lean
functions; the fallible steps (JSON parsing, generator invocation)
become `Except` values; the upstream HTTP response body delivered to the
Gemini generator becomes an optional list of byte chunks, and the
per-chunk text decoder (`new TextDecoder().decode`, constructed fresh
for every chunk in the source) becomes a pure function parameter
`decode : List Nat → String`.
-/

namespace LlmChat

/-- `ChatRole` from the combined `types.ts` content: `"system" | "user" | "assistant"`. -/
inductive ChatRole where
  | system
  | user
  | assistant
  deriving DecidableEq, Repr

/-- `ChatMessage` from the combined `types.ts` content: `{ role, content }`. -/
structure ChatMessage where
  role : ChatRole
  content : String
  deriving DecidableEq, Repr

/-- The default system prompt constant `SYSTEM_PROMPT` of `src/index.ts`. -/
def SYSTEM_PROMPT : String :=
  "You are a helpful, friendly assistant. Provide concise and accurate responses."

/-- The parsed JSON request body before default substitution:
`(await request.json()) as { messages: ChatMessage[]; model: string }`,
where each field may be absent. -/
structure ChatRequestBody where
  messages : Option (List ChatMessage)
  model : Option String
  deriving DecidableEq, Repr

/-- Destructuring default `messages = []` in
`const { messages = [], model = "workers-ai" } = (await request.json())`. -/
def defaultedMessages (b : ChatRequestBody) : List ChatMessage :=
  b.messages.getD []

/-- Destructuring default `model = "workers-ai"`. -/
def defaultedModel (b : ChatRequestBody) : String :=
  b.model.getD "workers-ai"

/-- `messages.some((msg) => msg.role === "system")` in `handleChatRequest`. -/
def hasSystemMessage (messages : List ChatMessage) : Bool :=
  messages.any fun msg => msg.role == ChatRole.system

/-- Lines 80-82 of `src/index.ts`: if no message has role `system`,
`messages.unshift({ role: "system", content: SYSTEM_PROMPT })`. -/
def addSystemPrompt (messages : List ChatMessage) : List ChatMessage :=
  if hasSystemMessage messages then messages
  else ⟨ChatRole.system, SYSTEM_PROMPT⟩ :: messages

/-- Which backend generator `handleChatRequest` invokes, and with which
(normalized) message list. -/
inductive GenCall where
  | workersAi (messages : List ChatMessage)
  | gemini (messages : List ChatMessage)
  deriving DecidableEq, Repr

/-- Lines 77-89 of `src/index.ts`: default substitution, system-prompt
injection, and the `if (model === "gemini")` branch selecting the
generator that is invoked with the normalized messages. -/
def dispatchPlan (b : ChatRequestBody) : GenCall :=
  let messages := addSystemPrompt (defaultedMessages b)
  if defaultedModel b == "gemini" then GenCall.gemini messages
  else GenCall.workersAi messages

/-- `Array.prototype.join(sep)` as used in
`messages.map((msg) => msg.content).join("\n")`. -/
def joinSep (sep : String) : List String → String
  | [] => ""
  | [x] => x
  | x :: y :: rest => x ++ sep ++ joinSep sep (y :: rest)

/-- Line 129 of `src/index.ts`: the flattened Gemini prompt
`messages.map((msg) => msg.content).join("\n")`. -/
def geminiPrompt (messages : List ChatMessage) : String :=
  joinSep "\n" (messages.map fun msg => msg.content)

/-- One event observable on the output `ReadableStream` built by the
Gemini generator: either an enqueued string chunk or the final close. -/
inductive OutEvent where
  | data (payload : String)
  | closed
  deriving DecidableEq, Repr

/-- The SSE frame built on line 167: `data: ` then the decoded chunk
then two newlines. -/
def sseFrame (s : String) : String :=
  "data: " ++ s ++ "\n\n"

/-- Lines 158-171 of `src/index.ts`: the pump loop of the returned
`ReadableStream`.  Each upstream read either yields a byte chunk, which
is decoded by a freshly constructed `TextDecoder` (modelled by `decode`
applied to that chunk alone) and enqueued as one SSE frame, or signals
`done`, upon which the controller is closed. -/
def geminiPumpEvents (decode : List Nat → String) : List (List Nat) → List OutEvent
  | [] => [OutEvent.closed]
  | value :: rest => OutEvent.data (sseFrame (decode value)) :: geminiPumpEvents decode rest

/-- Lines 125-172 of `src/index.ts`: the Gemini generator.  The prompt
is flattened from the messages; the upstream HTTP response body is
modelled by `responseBody` (`none` when `response.body?.getReader()`
yields no reader, in which case the generator throws
`"Failed to get reader from Gemini API response"`; otherwise the list
of byte chunks the reader will deliver before signalling done). -/
def generateStreamingResponseUsingGemini (decode : List Nat → String)
    (responseBody : Option (List (List Nat))) (messages : List ChatMessage) :
    Except String (List OutEvent) :=
  let _prompt := geminiPrompt messages
  match responseBody with
  | none => Except.error "Failed to get reader from Gemini API response"
  | some chunks => Except.ok (geminiPumpEvents decode chunks)

/-- A response body: plain text or the generator's output stream. -/
inductive ResponseBody where
  | text (s : String)
  | stream (events : List OutEvent)
  deriving DecidableEq, Repr

/-- An HTTP response as constructed by the worker: status, header list,
body.  `new Response(body)` with no init has status 200 and no headers. -/
structure Response where
  status : Nat
  headers : List (String × String)
  body : ResponseBody
  deriving DecidableEq, Repr

/-- Lines 99-108 of `src/index.ts`: the response built in the catch
block: status 500, `content-type: application/json`, body
`JSON.stringify({ error: "Failed to process request" })`. -/
def errorResponse : Response :=
  ⟨500, [("content-type", "application/json")],
    ResponseBody.text "\x7b\"error\":\"Failed to process request\"\x7d"⟩

/-- Lines 70-109 of `src/index.ts`: `handleChatRequest`.  The fallible
body parse is `parseResult`; the selected generator invocation is
`runGenerator` applied to the dispatch plan (any exception in the try
block is an `Except.error`, converted by the catch block to
`errorResponse`).  On success the stream is wrapped in a 200 response
with the three SSE headers of lines 92-98. -/
def handleChatRequest (parseResult : Except String ChatRequestBody)
    (runGenerator : GenCall → Except String (List OutEvent)) : Response :=
  match parseResult with
  | Except.error _ => errorResponse
  | Except.ok body =>
    match runGenerator (dispatchPlan body) with
    | Except.error _ => errorResponse
    | Except.ok events =>
      ⟨200,
        [("content-type", "text/event-stream"), ("cache-control", "no-cache"),
          ("connection", "keep-alive")],
        ResponseBody.stream events⟩

/-- Combining the two generators of `src/index.ts` into the function
invoked by `handleChatRequest`: the Workers AI generator returns
whatever stream `ai.run` produces (modelled by `workersAiResult`), the
Gemini generator runs `generateStreamingResponseUsingGemini` on the
upstream body `geminiBody`. -/
def runGenerators (decode : List Nat → String) (geminiBody : Option (List (List Nat)))
    (workersAiResult : Except String (List OutEvent)) : GenCall → Except String (List OutEvent)
  | GenCall.workersAi _ => workersAiResult
  | GenCall.gemini msgs => generateStreamingResponseUsingGemini decode geminiBody msgs

/-- `String.prototype.startsWith` as used on `url.pathname`: a prefix
check on the string's characters. -/
def startsWithPath (s p : String) : Bool :=
  p.data.isPrefixOf s.data

/-- Lines 40-64 of `src/index.ts`: the top-level `fetch` router, as a
function of the request method, the URL pathname, the static-asset
collaborator's response, and the chat handler's response. -/
def workerFetch (method pathname : String) (assetsResponse chatResponse : Response) :
    Response :=
  if pathname == "/" || !(startsWithPath pathname "/api/") then assetsResponse
  else if pathname == "/api/chat" then
    if method == "POST" then chatResponse
    else ⟨405, [], ResponseBody.text "Method not allowed"⟩
  else ⟨404, [], ResponseBody.text "Not found"⟩

/-- The pump emits exactly one `data` frame per upstream chunk, in
order, followed by the close event. -/
theorem geminiPumpEvents_spec (decode : List Nat → String) (chunks : List (List Nat)) :
    geminiPumpEvents decode chunks =
      chunks.map (fun v => OutEvent.data (sseFrame (decode v))) ++ [OutEvent.closed] := by
  induction chunks with
  | nil => rfl
  | cons v rest ih => simp [geminiPumpEvents, ih]

/-- C1: if the message list contains no system-role element, the adapter
inserts exactly one default system message at index 0 (so exactly one
system message is present afterwards); if it already contains at least
one system-role element, the list is passed through unmodified. -/
theorem system_prompt_injection (messages : List ChatMessage) :
    (hasSystemMessage messages = false →
      addSystemPrompt messages = ⟨ChatRole.system, SYSTEM_PROMPT⟩ :: messages ∧
      ((addSystemPrompt messages).filter fun m => m.role == ChatRole.system).length = 1) ∧
    (hasSystemMessage messages = true → addSystemPrompt messages = messages) := by
  constructor
  · intro h
    have hcons : addSystemPrompt messages = ⟨ChatRole.system, SYSTEM_PROMPT⟩ :: messages := by
      simp [addSystemPrompt, h]
    refine ⟨hcons, ?_⟩
    rw [hcons]
    have hnone : messages.filter (fun m => m.role == ChatRole.system) = [] := by
      rw [List.filter_eq_nil_iff]
      intro m hm
      have := List.any_eq_false.mp h m hm
      simpa using this
    simp [List.filter, hnone]
  · intro h
    simp [addSystemPrompt, h]

/-- Witness for C1 at a concrete one-element user message list. -/
theorem system_prompt_injection_witness :
    addSystemPrompt [⟨ChatRole.user, "Hi"⟩] =
      [⟨ChatRole.system, SYSTEM_PROMPT⟩, ⟨ChatRole.user, "Hi"⟩] :=
  ((system_prompt_injection [⟨ChatRole.user, "Hi"⟩]).1 (by decide)).1

/-- C2: the Gemini generator is invoked if and only if the parsed body's
`model` field is exactly `some "gemini"`; for every other value,
including the default `"workers-ai"` substituted when the field is
absent, the Workers AI generator is invoked. -/
theorem model_selection (b : ChatRequestBody) :
    (b.model = some "gemini" →
      dispatchPlan b = GenCall.gemini (addSystemPrompt (defaultedMessages b))) ∧
    (b.model ≠ some "gemini" →
      dispatchPlan b = GenCall.workersAi (addSystemPrompt (defaultedMessages b))) := by
  constructor
  · intro h
    simp [dispatchPlan, defaultedModel, h]
  · intro h
    cases hm : b.model with
    | none => simp [dispatchPlan, defaultedModel, hm]
    | some m =>
      have hne : m ≠ "gemini" := by
        intro hEq
        exact h (by rw [hm, hEq])
      simp [dispatchPlan, defaultedModel, hm, hne]

/-- Witness for C2: a body with `model = "gemini"` dispatches to Gemini. -/
theorem model_selection_witness :
    dispatchPlan ⟨none, some "gemini"⟩ =
      GenCall.gemini (addSystemPrompt (defaultedMessages ⟨none, some "gemini"⟩)) :=
  (model_selection ⟨none, some "gemini"⟩).1 rfl

/-- C3: for every finite chunk sequence delivered upstream, the Gemini
pump emits exactly one `data: <decoded chunk>\n\n` frame per chunk, in
arrival order, with no drops, then closes the stream; concatenating the
emitted payloads reproduces the concatenation of the per-chunk frames. -/
theorem gemini_stream_framing (decode : List Nat → String) (chunks : List (List Nat)) :
    geminiPumpEvents decode chunks =
      (chunks.map fun v => OutEvent.data ("data: " ++ decode v ++ "\n\n")) ++
        [OutEvent.closed] ∧
    String.join ((geminiPumpEvents decode chunks).filterMap fun e =>
        match e with
        | OutEvent.data s => some s
        | OutEvent.closed => none) =
      String.join (chunks.map fun v => "data: " ++ decode v ++ "\n\n") := by
  refine ⟨geminiPumpEvents_spec decode chunks, ?_⟩
  refine congrArg String.join ?_
  induction chunks with
  | nil => rfl
  | cons v rest ih => simp [geminiPumpEvents, sseFrame, ih]

/-- C4: routing is a pure function of method and pathname: root or
non-`/api/` paths return the static-asset response unmodified;
`POST /api/chat` dispatches to the chat handler; non-POST `/api/chat`
returns 405 independently of the chat handler's response (no upstream
call); other `/api/` paths return 404. -/
theorem routing (method pathname : String) (assetsResponse chatResponse other : Response) :
    ((pathname = "/" ∨ startsWithPath pathname "/api/" = false) →
      workerFetch method pathname assetsResponse chatResponse = assetsResponse) ∧
    (pathname = "/api/chat" → method = "POST" →
      workerFetch method pathname assetsResponse chatResponse = chatResponse) ∧
    (pathname = "/api/chat" → method ≠ "POST" →
      workerFetch method pathname assetsResponse chatResponse =
        ⟨405, [], ResponseBody.text "Method not allowed"⟩ ∧
      workerFetch method pathname assetsResponse chatResponse =
        workerFetch method pathname assetsResponse other) ∧
    (startsWithPath pathname "/api/" = true → pathname ≠ "/api/chat" →
      workerFetch method pathname assetsResponse chatResponse =
        ⟨404, [], ResponseBody.text "Not found"⟩) := by
  have hchat : startsWithPath "/api/chat" "/api/" = true := by decide
  refine ⟨?_, ?_, ?_, ?_⟩
  · rintro (h | h) <;> simp [workerFetch, h]
  · intro hp hm
    simp [workerFetch, hp, hm, hchat]
  · intro hp hm
    constructor <;> simp [workerFetch, hp, hm, hchat]
  · intro hp hne
    have hroot : pathname ≠ "/" := by
      intro h
      rw [h] at hp
      exact absurd hp (by decide)
    simp [workerFetch, hp, hne, hroot]

/-- Witness for C4: `GET /api/chat` yields a 405 response that does not
depend on the chat handler's response. -/
theorem routing_witness :
    workerFetch "GET" "/api/chat" errorResponse errorResponse =
      ⟨405, [], ResponseBody.text "Method not allowed"⟩ ∧
    workerFetch "GET" "/api/chat" errorResponse errorResponse =
      workerFetch "GET" "/api/chat" errorResponse
        ⟨200, [], ResponseBody.text "other"⟩ :=
  (routing "GET" "/api/chat" errorResponse errorResponse
      ⟨200, [], ResponseBody.text "other"⟩).2.2.1 rfl (by decide)

/-- C5: every exception raised before stream construction — body parse
failure or generator failure — is converted by the single top-level
catch into a 500 response with JSON body
`{"error":"Failed to process request"}` (braces elided here), carrying
no detail of the underlying exception. -/
theorem error_boundary (runGenerator : GenCall → Except String (List OutEvent)) :
    (∀ parseError : String,
      handleChatRequest (Except.error parseError) runGenerator =
        ⟨500, [("content-type", "application/json")],
          ResponseBody.text "\x7b\"error\":\"Failed to process request\"\x7d"⟩) ∧
    (∀ (b : ChatRequestBody) (genError : String),
      runGenerator (dispatchPlan b) = Except.error genError →
      handleChatRequest (Except.ok b) runGenerator =
        ⟨500, [("content-type", "application/json")],
          ResponseBody.text "\x7b\"error\":\"Failed to process request\"\x7d"⟩) := by
  constructor
  · intro parseError
    rfl
  · intro b genError h
    simp [handleChatRequest, h, errorResponse]

/-- Witness for C5: a generator failure on a concrete body yields the
generic 500 JSON error response. -/
theorem error_boundary_witness :
    handleChatRequest (Except.ok ⟨none, none⟩) (fun _ => Except.error "boom") =
      ⟨500, [("content-type", "application/json")],
        ResponseBody.text "\x7b\"error\":\"Failed to process request\"\x7d"⟩ :=
  (error_boundary (fun _ => Except.error "boom")).2 ⟨none, none⟩ "boom" rfl

/-- C6: the Gemini prompt joins every message's content with a single
newline, in order, discarding roles (messages with equal content lists
give equal prompts); for the scenario `[user "A", assistant "B"]` with
no system message present, the prompt after injection is the default
system prompt, then `"A"`, then `"B"`, newline-joined. -/
theorem gemini_prompt_flattening :
    (∀ ms₁ ms₂ : List ChatMessage,
      (ms₁.map fun m => m.content) = (ms₂.map fun m => m.content) →
      geminiPrompt ms₁ = geminiPrompt ms₂) ∧
    (∀ (a b : ChatMessage) (rest : List ChatMessage),
      geminiPrompt (a :: b :: rest) = a.content ++ "\n" ++ geminiPrompt (b :: rest)) ∧
    geminiPrompt (addSystemPrompt [⟨ChatRole.user, "A"⟩, ⟨ChatRole.assistant, "B"⟩]) =
      SYSTEM_PROMPT ++ "\nA\nB" := by
  refine ⟨?_, ?_, ?_⟩
  · intro ms₁ ms₂ h
    rw [geminiPrompt, geminiPrompt, h]
  · intro a b rest
    rfl
  · decide

/-- Witness for C6: two single-message lists with different roles but
the same content produce the same prompt. -/
theorem gemini_prompt_flattening_witness :
    geminiPrompt [⟨ChatRole.user, "x"⟩] = geminiPrompt [⟨ChatRole.assistant, "x"⟩] :=
  gemini_prompt_flattening.1 [⟨ChatRole.user, "x"⟩] [⟨ChatRole.assistant, "x"⟩] rfl

/-- C7: when the upstream HTTP response yields no readable body, the
Gemini generator fails with the no-readable-body error before emitting
any chunk, and through the adapter this produces the generic 500 JSON
error response. -/
theorem gemini_no_readable_body (decode : List Nat → String) (messages : List ChatMessage)
    (b : ChatRequestBody) (workersAiResult : Except String (List OutEvent))
    (hmodel : b.model = some "gemini") :
    generateStreamingResponseUsingGemini decode none messages =
      Except.error "Failed to get reader from Gemini API response" ∧
    handleChatRequest (Except.ok b) (runGenerators decode none workersAiResult) =
      ⟨500, [("content-type", "application/json")],
        ResponseBody.text "\x7b\"error\":\"Failed to process request\"\x7d"⟩ := by
  constructor
  · rfl
  · have hplan : dispatchPlan b = GenCall.gemini (addSystemPrompt (defaultedMessages b)) := by
      simp [dispatchPlan, defaultedModel, hmodel]
    simp [handleChatRequest, hplan, runGenerators, generateStreamingResponseUsingGemini,
      errorResponse]

/-- Witness for C7 at a concrete body selecting the Gemini generator. -/
theorem gemini_no_readable_body_witness :
    generateStreamingResponseUsingGemini (fun _ => "") none [] =
      Except.error "Failed to get reader from Gemini API response" ∧
    handleChatRequest (Except.ok ⟨none, some "gemini"⟩)
        (runGenerators (fun _ => "") none (Except.ok [])) =
      ⟨500, [("content-type", "application/json")],
        ResponseBody.text "\x7b\"error\":\"Failed to process request\"\x7d"⟩ :=
  gemini_no_readable_body (fun _ => "") [] ⟨none, some "gemini"⟩ (Except.ok []) rfl

/-- C8: whenever the selected generator returns a stream without an
exception, the adapter returns status 200 with exactly the headers
`content-type: text/event-stream`, `cache-control: no-cache`,
`connection: keep-alive`, and that stream as the body. -/
theorem streaming_success_response (b : ChatRequestBody)
    (runGenerator : GenCall → Except String (List OutEvent)) (events : List OutEvent)
    (h : runGenerator (dispatchPlan b) = Except.ok events) :
    handleChatRequest (Except.ok b) runGenerator =
      ⟨200,
        [("content-type", "text/event-stream"), ("cache-control", "no-cache"),
          ("connection", "keep-alive")],
        ResponseBody.stream events⟩ := by
  simp [handleChatRequest, h]

/-- Witness for C8 with a generator returning the empty stream. -/
theorem streaming_success_response_witness :
    handleChatRequest (Except.ok ⟨none, none⟩) (fun _ => Except.ok []) =
      ⟨200,
        [("content-type", "text/event-stream"), ("cache-control", "no-cache"),
          ("connection", "keep-alive")],
        ResponseBody.stream []⟩ :=
  streaming_success_response ⟨none, none⟩ (fun _ => Except.ok []) [] rfl

/-- C9: a body with no `messages` field (or an empty list) and a model
other than `"gemini"` makes the adapter invoke the Workers AI generator
with exactly the one-element list holding the default system message. -/
theorem empty_messages_dispatch (b : ChatRequestBody)
    (hmsgs : b.messages = none ∨ b.messages = some [])
    (hmodel : b.model ≠ some "gemini") :
    dispatchPlan b = GenCall.workersAi [⟨ChatRole.system, SYSTEM_PROMPT⟩] := by
  have hdm : defaultedMessages b = [] := by
    rcases hmsgs with h | h <;> simp [defaultedMessages, h]
  have hadd : addSystemPrompt (defaultedMessages b) = [⟨ChatRole.system, SYSTEM_PROMPT⟩] := by
    rw [hdm]
    rfl
  cases hm : b.model with
  | none => simp [dispatchPlan, defaultedModel, hm, hadd]
  | some m =>
    have hne : m ≠ "gemini" := by
      intro hEq
      exact hmodel (by rw [hm, hEq])
    simp [dispatchPlan, defaultedModel, hm, hne, hadd]

/-- Witness for C9 at the body with both fields absent. -/
theorem empty_messages_dispatch_witness :
    dispatchPlan ⟨none, none⟩ = GenCall.workersAi [⟨ChatRole.system, SYSTEM_PROMPT⟩] :=
  empty_messages_dispatch ⟨none, none⟩ (Or.inl rfl) (by decide)

/-- C10: the frame emitted for chunk `i` is a function of chunk `i`
alone: any two upstream sequences sharing the `i`-th chunk yield the
same `i`-th output event, namely the frame of that chunk's own decoding
(each chunk is decoded by a freshly constructed decoder, with no state
carried across chunk boundaries). -/
theorem chunk_decoding_stateless (decode : List Nat → String)
    (chunks₁ chunks₂ : List (List Nat)) (i : Nat) (v : List Nat)
    (h₁ : chunks₁[i]? = some v) (h₂ : chunks₂[i]? = some v) :
    (geminiPumpEvents decode chunks₁)[i]? =
      some (OutEvent.data ("data: " ++ decode v ++ "\n\n")) ∧
    (geminiPumpEvents decode chunks₁)[i]? = (geminiPumpEvents decode chunks₂)[i]? := by
  have key : ∀ cs : List (List Nat), cs[i]? = some v →
      (geminiPumpEvents decode cs)[i]? =
        some (OutEvent.data ("data: " ++ decode v ++ "\n\n")) := by
    intro cs hcs
    have hlt : i < cs.length := by
      by_contra hge
      rw [List.getElem?_eq_none (Nat.le_of_not_lt hge)] at hcs
      exact Option.noConfusion hcs
    rw [geminiPumpEvents_spec,
      List.getElem?_append_left (by simpa using hlt), List.getElem?_map, hcs]
    rfl
  exact ⟨key chunks₁ h₁, (key chunks₁ h₁).trans (key chunks₂ h₂).symm⟩

/-- Witness for C10: two different sequences sharing the second chunk
emit the same second frame. -/
theorem chunk_decoding_stateless_witness :
    (geminiPumpEvents (fun chunk => toString chunk.length) [[1], [2, 3]])[1]? =
      some (OutEvent.data ("data: " ++ toString ([2, 3] : List Nat).length ++ "\n\n")) ∧
    (geminiPumpEvents (fun chunk => toString chunk.length) [[1], [2, 3]])[1]? =
      (geminiPumpEvents (fun chunk => toString chunk.length) [[9, 9], [2, 3], [4]])[1]? :=
  chunk_decoding_stateless (fun chunk => toString chunk.length)
    [[1], [2, 3]] [[9, 9], [2, 3], [4]] 1 [2, 3] rfl rfl

end LlmChat
